import Mathlib

/-!
Verification development for the IntelliShop payment-orchestration core:
a shallow embedding of the freeze-risk assessment engine
(`claude_risk_analyzer.py`) and the enhanced routing engine
(`enhanced_routing_engine.py`), together with the advisor-validation step
of `claude_router.py`.

Modelling conventions:
* Python floats that only ever hold exact decimal constants and ratios of
  integers are modelled as `ℚ`.
* Transaction `type` and `description` fields are strings, as in the
  SQLite rows the Python code reads.
* Purely textual fields of the source dataclasses (reasoning text,
  mitigation actions, timeline estimates, timestamps) do not influence any
  control flow under study and are omitted from the records.
* `datetime.fromtimestamp(ts).hour` is modelled as `ts / 3600 % 24`
  (UTC), and the `'%Y-%m-%d %H:00'` bucket key as the absolute hour
  `ts / 3600`.
-/

namespace IntelliShop

/-- Severity levels of `RiskLevel` in `claude_risk_analyzer.py`. -/
inductive RiskLevel
  | low
  | medium
  | high
  | critical
deriving DecidableEq, Repr

/-- The `risk_type` field of a `RiskFactor`: `"account_level"` or
`"transaction_level"` in the source. -/
inductive RiskType
  | account_level
  | transaction_level
deriving DecidableEq, Repr

/-- The `FreezeRiskPattern` enum of `claude_risk_analyzer.py` (patterns the
analyzers under study can emit). -/
inductive FreezeRiskPattern
  | volume_spike
  | refund_surge
  | chargeback_pattern
  | velocity_anomaly
  | high_value_transaction
  | suspicious_description
deriving DecidableEq, Repr

/-- A row of the `balance_transactions` table as loaded by
`analyze_transactions`: amount in minor units, creation timestamp in epoch
seconds, the `type` string and the free-text description. -/
structure Transaction where
  amount : Int
  created : Nat
  txType : String
  description : String
deriving DecidableEq, Repr

/-- The `RiskFactor` dataclass of `claude_risk_analyzer.py`, restricted to
the fields that drive aggregation (text fields omitted). -/
structure RiskFactor where
  pattern : FreezeRiskPattern
  severity : RiskLevel
  confidence : ℚ
  freeze_probability : ℚ
  risk_type : RiskType
  affected_transactions : Nat
deriving DecidableEq, Repr

/-- The parts of the `TransactionAnalysis` dataclass the claims are about. -/
structure TransactionAnalysis where
  overall_risk : RiskLevel
  freeze_probability : ℚ
  identified_patterns : List RiskFactor
  transaction_count : Nat
deriving DecidableEq, Repr

/-- `[t for t in transactions if t['type'] == 'charge']`. -/
def charges (ts : List Transaction) : List Transaction :=
  ts.filter (fun t => decide (t.txType = "charge"))

/-- `[t for t in transactions if t['type'] == 'refund']`. -/
def refunds (ts : List Transaction) : List Transaction :=
  ts.filter (fun t => decide (t.txType = "refund"))

/-- `[t for t in transactions if t['type'] == 'adjustment']`. -/
def adjustments (ts : List Transaction) : List Transaction :=
  ts.filter (fun t => decide (t.txType = "adjustment"))

/-- `description.lower()` (ASCII lowering, as the descriptions at hand are
ASCII), computed on the underlying character list. -/
def lowerStr (s : String) : String :=
  ⟨s.data.map Char.toLower⟩

/-- Python truthiness of `s.strip()`: true exactly when some character of
`s` is not whitespace (so the stripped string is nonempty). -/
def stripNonempty (s : String) : Bool :=
  s.data.any (fun c => !c.isWhitespace)

/-- Python's `pat in s` substring test. -/
def strContains (s pat : String) : Bool :=
  decide (pat.toList <:+: s.toList)

/-- `any(keyword in description.lower() for keyword in keys)`. -/
def containsAny (desc : String) (keys : List String) : Bool :=
  keys.any (fun k => strContains (lowerStr desc) k)

/-- `max(1, len(set(datetime.fromtimestamp(t['created']).hour for t in charges)))`
from `_analyze_volume_patterns`. -/
def hoursAnalyzed (ts : List Transaction) : Nat :=
  max 1 (((charges ts).map (fun t => t.created / 3600 % 24)).dedup).length

/-- `_analyze_volume_patterns` of `ClaudeRiskAnalysisEngine`: fires a
volume-spike factor when the current daily charge rate is at least 10x the
30-day baseline daily rate (`baselineDaily`, the value after the source's
`or 10` defaulting). -/
def analyzeVolumePatterns (ts : List Transaction) (baselineDaily : ℚ) :
    Option RiskFactor :=
  let currentVolume : ℚ := (charges ts).length
  let currentDailyRate : ℚ := currentVolume / (hoursAnalyzed ts : ℚ) * 24
  let volumeMultiplier : ℚ :=
    if 0 < baselineDaily then currentDailyRate / baselineDaily else 1
  if 10 ≤ volumeMultiplier then
    some
      { pattern := .volume_spike
        severity := if 15 ≤ volumeMultiplier then .high else .medium
        confidence := min (19/20) (volumeMultiplier / 20)
        freeze_probability := min (17/20) (volumeMultiplier / 20)
        risk_type := .account_level
        affected_transactions := (charges ts).length }
  else none

/-- `_analyze_refund_patterns`: fires at refund rate `>= 0.05`, escalating
to critical severity at `>= 0.10`. -/
def analyzeRefundPatterns (ts : List Transaction) : Option RiskFactor :=
  if (charges ts).isEmpty then none
  else
    let refundRate : ℚ := ((refunds ts).length : ℚ) / ((charges ts).length : ℚ)
    if 1/20 ≤ refundRate then
      some
        { pattern := .refund_surge
          severity := if 1/10 ≤ refundRate then .critical else .high
          confidence := 9/10
          freeze_probability := min (3/4) (refundRate * 5)
          risk_type := .account_level
          affected_transactions := (refunds ts).length }
    else none

/-- `_analyze_chargeback_patterns`: fires (always critical) at chargeback
rate `>= 0.01`, where chargebacks are the `adjustment`-typed rows. -/
def analyzeChargebackPatterns (ts : List Transaction) : Option RiskFactor :=
  if (charges ts).isEmpty then none
  else
    let chargebackRate : ℚ :=
      ((adjustments ts).length : ℚ) / ((charges ts).length : ℚ)
    if 1/100 ≤ chargebackRate then
      some
        { pattern := .chargeback_pattern
          severity := .critical
          confidence := 19/20
          freeze_probability := 9/10
          risk_type := .account_level
          affected_transactions := (adjustments ts).length }
    else none

/-- The largest per-hour bucket count of `_analyze_velocity_patterns`
(`max(hourly_counts.values()) if hourly_counts else 0`); buckets are keyed
by the absolute hour of `created`, over ALL transactions in the window. -/
def maxHourly (ts : List Transaction) : Nat :=
  (((ts.map (fun t => t.created / 3600)).dedup).map
    (fun b => ts.countP (fun t => decide (t.created / 3600 = b)))).foldl max 0

/-- `_analyze_velocity_patterns`: fires when some hour bucket holds at
least 100 transactions. -/
def analyzeVelocityPatterns (ts : List Transaction) : Option RiskFactor :=
  if ts.isEmpty then none
  else
    if 100 ≤ maxHourly ts then
      some
        { pattern := .velocity_anomaly
          severity := .high
          confidence := 4/5
          freeze_probability := 3/5
          risk_type := .account_level
          affected_transactions := maxHourly ts }
    else none

/-- Suspicious-description keyword blocklist of
`_analyze_individual_transactions`. -/
def suspiciousKeywords : List String :=
  ["test", "fake", "fraud", "chargeback", "dispute"]

/-- `_analyze_individual_transactions`: at most one high-value factor
(charges of at least 100000 minor units) and one suspicious-description
factor, both transaction-level. -/
def analyzeIndividualTransactions (ts : List Transaction) : List RiskFactor :=
  let chs := charges ts
  if chs.isEmpty then []
  else
    let highValue := chs.filter (fun t => decide (100000 ≤ t.amount))
    let suspicious := chs.filter (fun t =>
      stripNonempty (lowerStr t.description) &&
        suspiciousKeywords.any (fun k => strContains (lowerStr t.description) k))
    (if highValue.isEmpty then []
     else
       [{ pattern := .high_value_transaction
          severity := .low
          confidence := 3/5
          freeze_probability := 1/10
          risk_type := .transaction_level
          affected_transactions := highValue.length }]) ++
    (if suspicious.isEmpty then []
     else
       [{ pattern := .suspicious_description
          severity := .medium
          confidence := 4/5
          freeze_probability := 3/10
          risk_type := .transaction_level
          affected_transactions := suspicious.length }])

/-- Severity weights of `_calculate_overall_risk`. -/
def severityWeight : RiskLevel → ℚ
  | .low => 1
  | .medium => 2
  | .high => 4
  | .critical => 8

/-- Python's `max(list)` on a nonempty list; `0` mirrors the source's
explicit `else 0.0` for the empty case. -/
def pymax : List ℚ → ℚ
  | [] => 0
  | x :: xs => xs.foldl max x

/-- `_calculate_overall_risk` of `ClaudeRiskAnalysisEngine`: weighted
aggregation of factors into an overall risk level and freeze
probability. -/
def calculateOverallRisk (riskFactors : List RiskFactor) : RiskLevel × ℚ :=
  if riskFactors.isEmpty then (.low, 1/20)
  else
    let accountRisks :=
      riskFactors.filter (fun f => decide (f.risk_type = .account_level))
    let transactionRisks :=
      riskFactors.filter (fun f => decide (f.risk_type = .transaction_level))
    let accountWeight :=
      (accountRisks.map (fun f => severityWeight f.severity * f.confidence * 5)).sum
    let transactionWeight :=
      (transactionRisks.map (fun f => severityWeight f.severity * f.confidence)).sum
    let totalWeight := accountWeight + transactionWeight
    let accountFreezeProb := pymax (accountRisks.map (fun f => f.freeze_probability))
    let transactionFreezeProb :=
      pymax (transactionRisks.map (fun f => f.freeze_probability))
    let maxFreezeProb := max accountFreezeProb (transactionFreezeProb * (1/5))
    let overall : RiskLevel :=
      if riskFactors.any
          (fun f => decide (f.severity = .critical ∧ f.risk_type = .account_level))
      then .critical
      else if 16 ≤ accountWeight then .high
      else if 8 ≤ totalWeight then .medium
      else .low
    (overall, maxFreezeProb)

/-- `analyze_transactions` of `ClaudeRiskAnalysisEngine`, restricted to
the risk computation: the empty window takes the `_create_empty_analysis`
path, otherwise the five analyzers run and their factors are aggregated.
`baselineDaily` stands for the 30-day baseline daily charge rate the
source reads from the database. -/
def analyzeTransactions (ts : List Transaction) (baselineDaily : ℚ) :
    TransactionAnalysis :=
  if ts.isEmpty then
    { overall_risk := .low
      freeze_probability := 0
      identified_patterns := []
      transaction_count := 0 }
  else
    let riskFactors :=
      (analyzeVolumePatterns ts baselineDaily).toList ++
      (analyzeRefundPatterns ts).toList ++
      (analyzeChargebackPatterns ts).toList ++
      (analyzeVelocityPatterns ts).toList ++
      analyzeIndividualTransactions ts
    let result := calculateOverallRisk riskFactors
    { overall_risk := result.1
      freeze_probability := result.2
      identified_patterns := riskFactors
      transaction_count := ts.length }

/-- `ProcessorStatus` of `enhanced_routing_engine.py`. -/
inductive ProcessorStatus
  | healthy
  | warning
  | frozen
  | unavailable
deriving DecidableEq, Repr

/-- `ProcessorType` of `enhanced_routing_engine.py`, in declaration
order (which is also Python's enum iteration order). -/
inductive ProcessorType
  | stripe
  | paypal
  | square
  | visa
  | adyen
  | crossmint
deriving DecidableEq, Repr

/-- The members of `ProcessorType` in iteration order. -/
def allProcessors : List ProcessorType :=
  [.stripe, .paypal, .square, .visa, .adyen, .crossmint]

/-- The `ProcessorHealth` dataclass, restricted to the fields the routing
logic reads (text fields and timestamp omitted). -/
structure ProcessorHealth where
  processor : ProcessorType
  status : ProcessorStatus
  freeze_risk : ℚ
  chargeback_rate : ℚ
  refund_rate : ℚ
  volume_spike : ℚ
deriving DecidableEq, Repr

/-- The `RoutingDecision` dataclass of `enhanced_routing_engine.py`,
restricted to the fields under study. -/
structure RoutingDecision where
  selected_processor : ProcessorType
  confidence : ℚ
  fallback_chain : List ProcessorType
  freeze_avoidance : Bool
deriving DecidableEq, Repr

/-- `max_amount` of the `processor_capabilities` table. -/
def maxAmount : ProcessorType → ℚ
  | .stripe => 999999
  | .paypal => 100000
  | .square => 50000
  | .visa => 2000000
  | .adyen => 1000000
  | .crossmint => 500000

/-- `best_for` category tags of the `processor_capabilities` table. -/
def bestFor : ProcessorType → List String
  | .stripe => ["b2b", "subscription", "saas"]
  | .paypal => ["consumer", "marketplace", "ecommerce"]
  | .square => ["retail", "pos", "small_business"]
  | .visa => ["enterprise", "high_value", "international"]
  | .adyen => ["international", "enterprise", "high_volume"]
  | .crossmint => ["crypto", "web3", "defi", "nft", "international"]

/-- `freeze_resistance` of the `processor_capabilities` table
(0.3 / 0.6 / 0.7 / 0.9 / 0.8 / 0.95, written with `mkRat` so the
constants reduce in the kernel). -/
def freezeResistance : ProcessorType → ℚ
  | .stripe => mkRat 3 10
  | .paypal => mkRat 3 5
  | .square => mkRat 7 10
  | .visa => mkRat 9 10
  | .adyen => mkRat 4 5
  | .crossmint => mkRat 19 20

/-- The chargeback-analysis step of `_assess_stripe_health`: the status
after the first pair of threshold checks (starting from `healthy`). -/
def stripeStatusAfterChargeback (chargebackRate : ℚ) : ProcessorStatus :=
  if 1/100 ≤ chargebackRate then .frozen
  else if 1/200 ≤ chargebackRate then .warning
  else .healthy

/-- The refund-analysis step of `_assess_stripe_health`: both refund
branches demote `healthy` to `warning` and keep any other status. -/
def stripeStatusAfterRefund (refundRate : ℚ) (st : ProcessorStatus) :
    ProcessorStatus :=
  if 1/10 ≤ refundRate then (if st = .healthy then .warning else st)
  else if 1/20 ≤ refundRate then (if st = .healthy then .warning else st)
  else st

/-- The volume-spike step of `_assess_stripe_health`: the freeze branch
demotes every non-frozen status to `warning`, the warning branch demotes
only `healthy`. -/
def stripeStatusAfterVolume (volumeSpike : ℚ) (st : ProcessorStatus) :
    ProcessorStatus :=
  if 20 ≤ volumeSpike then (if st ≠ .frozen then .warning else st)
  else if 10 ≤ volumeSpike then (if st = .healthy then .warning else st)
  else st

/-- The freeze-risk contribution of the chargeback step (from the initial
0). -/
def stripeFreezeAfterChargeback (chargebackRate : ℚ) : ℚ :=
  if 1/100 ≤ chargebackRate then max 0 (19/20)
  else if 1/200 ≤ chargebackRate then max 0 (3/5)
  else 0

/-- The freeze-risk update of the refund step. -/
def stripeFreezeAfterRefund (refundRate fr : ℚ) : ℚ :=
  if 1/10 ≤ refundRate then max fr (17/20)
  else if 1/20 ≤ refundRate then max fr (2/5)
  else fr

/-- The freeze-risk update of the volume-spike step. -/
def stripeFreezeAfterVolume (volumeSpike fr : ℚ) : ℚ :=
  if 20 ≤ volumeSpike then max fr (4/5)
  else if 10 ≤ volumeSpike then max fr (3/10)
  else fr

/-- `_assess_stripe_health` of `EnhancedClaudeRoutingEngine`: the source's
sequential imperative updates of `status` and `freeze_risk` across the
chargeback, refund and volume-spike checks, rendered as the composition
of the three step functions above. -/
def assessStripeHealth (chargebackRate refundRate volumeSpike : ℚ) :
    ProcessorHealth :=
  { processor := .stripe
    status :=
      stripeStatusAfterVolume volumeSpike
        (stripeStatusAfterRefund refundRate
          (stripeStatusAfterChargeback chargebackRate))
    freeze_risk :=
      stripeFreezeAfterVolume volumeSpike
        (stripeFreezeAfterRefund refundRate
          (stripeFreezeAfterChargeback chargebackRate))
    chargeback_rate := chargebackRate
    refund_rate := refundRate
    volume_spike := volumeSpike }

/-- `_assess_alternative_processor_health`: non-Stripe processors are
always healthy, with a freeze risk that only depends on Stripe's status. -/
def assessAlternativeHealth (p : ProcessorType) (stripeStatus : ProcessorStatus) :
    ProcessorHealth :=
  let freezeRisk : ℚ :=
    if stripeStatus = .frozen then 1/10
    else if stripeStatus = .warning then 1/5
    else 3/20
  { processor := p
    status := .healthy
    freeze_risk := freezeRisk
    chargeback_rate := 1/200
    refund_rate := 3/100
    volume_spike := 1 }

/-- The health map built by `assess_processor_health` once the window's
chargeback rate, refund rate and volume-spike multiplier are known. -/
def assessProcessorHealth (chargebackRate refundRate volumeSpike : ℚ) :
    ProcessorType → ProcessorHealth :=
  fun p =>
    if p = .stripe then assessStripeHealth chargebackRate refundRate volumeSpike
    else
      assessAlternativeHealth p
        (assessStripeHealth chargebackRate refundRate volumeSpike).status

/-- `adjustments / max(charges, 1)` computed by `assess_processor_health`
over the window. -/
def windowChargebackRate (ts : List Transaction) : ℚ :=
  ((adjustments ts).length : ℚ) / ((max (charges ts).length 1 : Nat) : ℚ)

/-- `refunds / max(charges, 1)` computed by `assess_processor_health`. -/
def windowRefundRate (ts : List Transaction) : ℚ :=
  ((refunds ts).length : ℚ) / ((max (charges ts).length 1 : Nat) : ℚ)

/-- The volume-spike multiplier of `assess_processor_health`:
`current_daily / baseline_daily` with the source's positivity guard, where
`current_daily = charges / (time_window_hours / 24)`. -/
def windowVolumeSpike (ts : List Transaction) (timeWindowHours baselineDaily : ℚ) : ℚ :=
  let currentDaily := ((charges ts).length : ℚ) / (timeWindowHours / 24)
  if 0 < baselineDaily then currentDaily / baselineDaily else 1

/-- Stripe's health as `assess_processor_health` derives it from a ledger
window. -/
def stripeHealthFromWindow (ts : List Transaction)
    (timeWindowHours baselineDaily : ℚ) : ProcessorHealth :=
  assessStripeHealth (windowChargebackRate ts) (windowRefundRate ts)
    (windowVolumeSpike ts timeWindowHours baselineDaily)

/-- `_get_default_processor`: default selection by transaction
characteristics (enterprise amount first, then keyword categories in the
source's priority order). -/
def getDefaultProcessor (amount : ℚ) (description : String) : ProcessorType :=
  if 100000 < amount then .visa
  else if containsAny description
      ["crypto", "web3", "defi", "nft", "token", "blockchain", "wallet"] then
    .crossmint
  else if containsAny description
      ["b2b", "enterprise", "business", "subscription"] then .stripe
  else if containsAny description ["marketplace", "ecommerce", "consumer"] then
    .paypal
  else if containsAny description ["retail", "pos", "store"] then .square
  else if containsAny description ["international", "global", "cross-border"] then
    .adyen
  else .stripe

/-- The score `_select_stripe_alternative` assigns to a candidate:
amount fit, business-type fit, health and freeze resistance. -/
def alternativeScore (amount : ℚ) (description : String)
    (healths : ProcessorType → ProcessorHealth) (p : ProcessorType) : ℚ :=
  (if amount ≤ maxAmount p then 30 else -50) +
  (if containsAny description (bestFor p) then 25 else 0) +
  (1 - (healths p).freeze_risk) * 20 +
  freezeResistance p * 15

/-- Python's `max(scores, key=scores.get)` over a dict built in iteration
order: keep the current best, replacing it only on a strictly greater
score. -/
def pickBest {α : Type} (f : α → ℚ) : α → List α → α
  | best, [] => best
  | best, p :: ps => pickBest f (if f best < f p then p else best) ps

/-- The non-Stripe processors, in iteration order (the loop of
`_select_stripe_alternative` skips Stripe). -/
def nonStripeProcessors : List ProcessorType :=
  [.paypal, .square, .visa, .adyen, .crossmint]

/-- `_select_stripe_alternative`: the highest-scoring non-Stripe
processor, first-wins on ties as in Python's `max`. -/
def selectStripeAlternative (amount : ℚ) (description : String)
    (healths : ProcessorType → ProcessorHealth) : ProcessorType :=
  pickBest (alternativeScore amount description healths) .paypal
    [.square, .visa, .adyen, .crossmint]

/-- The sort key relation of `_build_fallback_chain`: ascending
lexicographic comparison of `(-freeze_risk, -freeze_resistance)`. -/
def fallbackLe (healths : ProcessorType → ProcessorHealth) (p q : ProcessorType) :
    Prop :=
  -(healths p).freeze_risk < -(healths q).freeze_risk ∨
    (-(healths p).freeze_risk = -(healths q).freeze_risk ∧
      -(freezeResistance p) ≤ -(freezeResistance q))

instance (healths : ProcessorType → ProcessorHealth) :
    DecidableRel (fallbackLe healths) := fun p q => by
  unfold fallbackLe; infer_instance

instance (healths : ProcessorType → ProcessorHealth) :
    IsTotal ProcessorType (fallbackLe healths) where
  total p q := by
    unfold fallbackLe
    rcases lt_trichotomy (-(healths p).freeze_risk) (-(healths q).freeze_risk) with h | h | h
    · exact Or.inl (Or.inl h)
    · rcases le_total (-(freezeResistance p)) (-(freezeResistance q)) with h' | h'
      · exact Or.inl (Or.inr ⟨h, h'⟩)
      · exact Or.inr (Or.inr ⟨h.symm, h'⟩)
    · exact Or.inr (Or.inl h)

instance (healths : ProcessorType → ProcessorHealth) :
    IsTrans ProcessorType (fallbackLe healths) where
  trans p q r hpq hqr := by
    unfold fallbackLe at *
    rcases hpq with h | ⟨h, h'⟩ <;> rcases hqr with g | ⟨g, g'⟩
    · exact Or.inl (h.trans g)
    · exact Or.inl (g ▸ h)
    · exact Or.inl (h ▸ g)
    · exact Or.inr ⟨h.trans g, h'.trans g'⟩

/-- `_build_fallback_chain`: drop the selected processor and every frozen
processor, stable-sort the rest by `(-freeze_risk, -freeze_resistance)`
and keep the top three.  `List.insertionSort` places an earlier element
before later key-equal ones, matching Python's stable `sorted`. -/
def buildFallbackChain (selected : ProcessorType)
    (healths : ProcessorType → ProcessorHealth) : List ProcessorType :=
  let available := allProcessors.filter
    (fun p => decide (p ≠ selected ∧ (healths p).status ≠ .frozen))
  (List.insertionSort (fallbackLe healths) available).take 3

/-- The body of `make_intelligent_routing_decision` once the health map is
computed: default selection, the two Stripe freeze-avoidance branches, and
fallback-chain construction (reasoning text, processing time and the
analysis dictionary omitted). -/
def routingDecisionCore (amount : ℚ) (description : String)
    (healths : ProcessorType → ProcessorHealth) : RoutingDecision :=
  let stripeHealth := healths .stripe
  let defaultProcessor := getDefaultProcessor amount description
  if defaultProcessor = .stripe ∧ stripeHealth.status = .frozen then
    { selected_processor := selectStripeAlternative amount description healths
      confidence := 23/25
      fallback_chain :=
        buildFallbackChain (selectStripeAlternative amount description healths) healths
      freeze_avoidance := true }
  else if defaultProcessor = .stripe ∧ 7/10 < stripeHealth.freeze_risk then
    { selected_processor := selectStripeAlternative amount description healths
      confidence := 23/25
      fallback_chain :=
        buildFallbackChain (selectStripeAlternative amount description healths) healths
      freeze_avoidance := true }
  else
    { selected_processor := defaultProcessor
      confidence := 19/20
      fallback_chain := buildFallbackChain defaultProcessor healths
      freeze_avoidance := false }

/-- `make_intelligent_routing_decision` with the health map it assesses
from the window's chargeback rate, refund rate and volume-spike
multiplier. -/
def makeIntelligentRoutingDecision (amount : ℚ) (description : String)
    (chargebackRate refundRate volumeSpike : ℚ) : RoutingDecision :=
  routingDecisionCore amount description
    (assessProcessorHealth chargebackRate refundRate volumeSpike)

/-- The advisor-validation step of `ClaudeRouter.make_routing_decision`
(`claude_router.py`): take the Decision Advisor's selected processor if it
is among the available ids, otherwise fall back to the first available
processor (`"stripe"` when none are available). -/
def selectValidatedProcessor (claudeSelected : Option String)
    (availableIds : List String) : String :=
  let defaultProcessor := availableIds.headD "stripe"
  let claude := claudeSelected.getD defaultProcessor
  if claude ∉ availableIds ∧ availableIds ≠ [] then defaultProcessor
  else claude

/-! ## Shared helper lemmas -/

theorem decide_account_account :
    decide (RiskType.account_level = RiskType.account_level) = true := rfl

theorem decide_account_transaction :
    decide (RiskType.account_level = RiskType.transaction_level) = false := rfl

theorem decide_transaction_account :
    decide (RiskType.transaction_level = RiskType.account_level) = false := rfl

theorem decide_transaction_transaction :
    decide (RiskType.transaction_level = RiskType.transaction_level) = true := rfl

/-- Any critical account-level factor in the list forces the aggregated
risk level to `critical`. -/
theorem calculateOverallRisk_fst_critical {fs : List RiskFactor} {f : RiskFactor}
    (hmem : f ∈ fs) (hsev : f.severity = .critical)
    (hty : f.risk_type = .account_level) :
    (calculateOverallRisk fs).1 = .critical := by
  have hne : fs.isEmpty = false := by
    cases fs with
    | nil => cases hmem
    | cons a l => rfl
  have hany : fs.any
      (fun f => decide (f.severity = .critical ∧ f.risk_type = .account_level)) = true :=
    List.any_eq_true.mpr ⟨f, hmem, by simp [hsev, hty]⟩
  simp only [calculateOverallRisk, hne, Bool.false_eq_true, if_false, hany, if_true]

theorem stripeStatusAfterChargeback_eq_frozen {cb : ℚ} :
    stripeStatusAfterChargeback cb = .frozen ↔ 1/100 ≤ cb := by
  unfold stripeStatusAfterChargeback
  split_ifs <;> simp_all

theorem stripeStatusAfterChargeback_eq_healthy {cb : ℚ} :
    stripeStatusAfterChargeback cb = .healthy ↔ cb < 1/200 := by
  unfold stripeStatusAfterChargeback
  split_ifs <;> simp_all <;> intros <;> linarith

theorem stripeStatusAfterRefund_eq_frozen {rr : ℚ} {st : ProcessorStatus} :
    stripeStatusAfterRefund rr st = .frozen ↔ st = .frozen := by
  unfold stripeStatusAfterRefund
  split_ifs <;> simp_all

theorem stripeStatusAfterRefund_eq_healthy {rr : ℚ} {st : ProcessorStatus} :
    stripeStatusAfterRefund rr st = .healthy ↔ (st = .healthy ∧ rr < 1/20) := by
  unfold stripeStatusAfterRefund
  split_ifs <;> simp_all <;> intros <;> linarith

theorem stripeStatusAfterVolume_eq_frozen {vs : ℚ} {st : ProcessorStatus} :
    stripeStatusAfterVolume vs st = .frozen ↔ st = .frozen := by
  unfold stripeStatusAfterVolume
  split_ifs <;> simp_all

theorem stripeStatusAfterVolume_eq_healthy {vs : ℚ} {st : ProcessorStatus} :
    stripeStatusAfterVolume vs st = .healthy ↔ (st = .healthy ∧ vs < 10) := by
  unfold stripeStatusAfterVolume
  split_ifs <;> simp_all <;> intros <;> linarith

theorem stripeStatusAfterChargeback_ne_unavailable (cb : ℚ) :
    stripeStatusAfterChargeback cb ≠ .unavailable := by
  unfold stripeStatusAfterChargeback
  split_ifs <;> simp

theorem stripeStatusAfterRefund_ne_unavailable {rr : ℚ} {st : ProcessorStatus}
    (h : st ≠ .unavailable) : stripeStatusAfterRefund rr st ≠ .unavailable := by
  unfold stripeStatusAfterRefund
  split_ifs <;> simp_all

theorem stripeStatusAfterVolume_ne_unavailable {vs : ℚ} {st : ProcessorStatus}
    (h : st ≠ .unavailable) : stripeStatusAfterVolume vs st ≠ .unavailable := by
  unfold stripeStatusAfterVolume
  split_ifs <;> simp_all

/-- A chargeback rate of at least 1% makes `_assess_stripe_health` report
status `frozen`, whatever the refund rate and volume spike are. -/
theorem assessStripeHealth_frozen {cb rr vs : ℚ} (h : 1/100 ≤ cb) :
    (assessStripeHealth cb rr vs).status = .frozen := by
  show stripeStatusAfterVolume vs
    (stripeStatusAfterRefund rr (stripeStatusAfterChargeback cb)) = .frozen
  rw [stripeStatusAfterVolume_eq_frozen, stripeStatusAfterRefund_eq_frozen,
    stripeStatusAfterChargeback_eq_frozen]
  exact h

/-- Alternative processors are always reported healthy. -/
theorem assessAlternativeHealth_status (p : ProcessorType) (st : ProcessorStatus) :
    (assessAlternativeHealth p st).status = .healthy := rfl

/-- Alternative processors never exceed freeze risk 1/5. -/
theorem assessAlternativeHealth_freeze_risk_le (p : ProcessorType)
    (st : ProcessorStatus) : (assessAlternativeHealth p st).freeze_risk ≤ 1/5 := by
  simp only [assessAlternativeHealth]
  split_ifs <;> norm_num

theorem pickBest_mem {α : Type} (f : α → ℚ) :
    ∀ (l : List α) (b : α), pickBest f b l ∈ b :: l := by
  intro l
  induction l with
  | nil => intro b; simp [pickBest]
  | cons p ps ih =>
    intro b
    simp only [pickBest]
    by_cases hc : f b < f p
    · rw [if_pos hc]
      exact List.mem_cons_of_mem b (ih p)
    · rw [if_neg hc]
      rcases List.mem_cons.mp (ih b) with h | h
      · rw [h]
        exact List.mem_cons_self b (p :: ps)
      · exact List.mem_cons_of_mem b (List.mem_cons_of_mem p h)

theorem le_pickBest {α : Type} (f : α → ℚ) :
    ∀ (l : List α) (b : α), f b ≤ f (pickBest f b l) := by
  intro l
  induction l with
  | nil => intro b; simp [pickBest]
  | cons p ps ih =>
    intro b
    simp only [pickBest]
    refine le_trans ?_ (ih (if f b < f p then p else b))
    split_ifs with h
    · exact le_of_lt h
    · exact le_rfl

theorem pickBest_maximal {α : Type} (f : α → ℚ) :
    ∀ (l : List α) (b : α) (p : α), p ∈ l → f p ≤ f (pickBest f b l) := by
  intro l
  induction l with
  | nil => intro b p hp; cases hp
  | cons q qs ih =>
    intro b p hp
    simp only [pickBest]
    rcases List.mem_cons.mp hp with h | h
    · subst h
      refine le_trans ?_ (le_pickBest f qs (if f b < f p then p else b))
      split_ifs with hlt
      · exact le_rfl
      · exact le_of_not_lt hlt
    · exact ih _ p h

/-- The selected Stripe alternative always scores at least as high as
every non-Stripe processor. -/
theorem selectStripeAlternative_maximal (amount : ℚ) (description : String)
    (healths : ProcessorType → ProcessorHealth) (p : ProcessorType)
    (hp : p ∈ nonStripeProcessors) :
    alternativeScore amount description healths p ≤
      alternativeScore amount description healths
        (selectStripeAlternative amount description healths) := by
  rcases List.mem_cons.mp hp with h | h
  · subst h
    exact le_pickBest _ _ _
  · exact pickBest_maximal _ _ _ _ h

/-- The selected Stripe alternative is a non-Stripe processor. -/
theorem selectStripeAlternative_mem (amount : ℚ) (description : String)
    (healths : ProcessorType → ProcessorHealth) :
    selectStripeAlternative amount description healths ∈ nonStripeProcessors :=
  pickBest_mem _ _ _

theorem mem_nonStripeProcessors_ne_stripe {p : ProcessorType}
    (hp : p ∈ nonStripeProcessors) : p ≠ .stripe := by
  fin_cases hp <;> decide

/-! ## Concrete witness inputs -/

/-- A transaction of the given type, amount and timestamp with an empty
description. -/
def mkTx (ty : String) (amount : Int) (created : Nat) : Transaction :=
  { amount := amount, created := created, txType := ty, description := "" }

/-- A two-transaction window: one charge, one chargeback. Its chargeback
rate is 1. -/
def chargebackWindow : List Transaction :=
  [mkTx "charge" 5000 0, mkTx "adjustment" 5000 0]

/-- A two-transaction window: one charge, one refund. Its refund rate is
1 and its chargeback rate is 0. -/
def refundWindow : List Transaction :=
  [mkTx "charge" 5000 0, mkTx "refund" 5000 0]

/-- A window with a single refund and no charge at all. -/
def onlyRefundWindow : List Transaction :=
  [mkTx "refund" 500 0]

/-! ## C1: chargeback rate at least 1% forces critical risk and a frozen
Stripe -/

/-- C1: for every ledger window with at least one charge whose chargeback
rate (adjustment count divided by charge count) is at least 0.01, the
risk assessment yields overall risk `critical`, and the Stripe health
derived from the same window is `frozen` — for every analyzer baseline,
health-assessment window length and health baseline. -/
theorem chargeback_rate_forces_critical_and_frozen
    (ts : List Transaction) (baselineDaily timeWindowHours healthBaseline : ℚ)
    (hch : 1 ≤ (charges ts).length)
    (hrate : 1/100 ≤ ((adjustments ts).length : ℚ) / ((charges ts).length : ℚ)) :
    (analyzeTransactions ts baselineDaily).overall_risk = .critical ∧
      (stripeHealthFromWindow ts timeWindowHours healthBaseline).status = .frozen := by
  have hchne : (charges ts).isEmpty = false := by
    cases hc : charges ts with
    | nil => rw [hc] at hch; cases hch
    | cons a l => rfl
  have htsne : ts.isEmpty = false := by
    cases hts : ts with
    | nil => rw [hts] at hchne; simp [charges] at hchne
    | cons a l => rfl
  have hcbf : analyzeChargebackPatterns ts =
      some
        { pattern := .chargeback_pattern
          severity := .critical
          confidence := 19/20
          freeze_probability := 9/10
          risk_type := .account_level
          affected_transactions := (adjustments ts).length } := by
    simp only [analyzeChargebackPatterns, hchne, Bool.false_eq_true, if_false,
      if_pos hrate]
  constructor
  · simp only [analyzeTransactions, htsne, Bool.false_eq_true, if_false]
    refine calculateOverallRisk_fst_critical
      (f :=
        { pattern := .chargeback_pattern
          severity := .critical
          confidence := 19/20
          freeze_probability := 9/10
          risk_type := .account_level
          affected_transactions := (adjustments ts).length }) ?_ rfl rfl
    rw [hcbf]
    simp
  · have hmax : ((max (charges ts).length 1 : Nat) : ℚ) = ((charges ts).length : ℚ) := by
      rw [Nat.max_eq_left hch]
    have h' : 1/100 ≤ windowChargebackRate ts := by
      rw [windowChargebackRate, hmax]; exact hrate
    exact assessStripeHealth_frozen h'

/-- Witness for C1 at a concrete window: one charge and one adjustment
give chargeback rate 1 ≥ 0.01. -/
theorem chargeback_rate_forces_critical_and_frozen_witness :
    (analyzeTransactions chargebackWindow 10).overall_risk = .critical ∧
      (stripeHealthFromWindow chargebackWindow 24 10).status = .frozen := by
  refine chargeback_rate_forces_critical_and_frozen chargebackWindow 10 24 10
    (by decide) ?_
  have h1 : (adjustments chargebackWindow).length = 1 := by decide
  have h2 : (charges chargebackWindow).length = 1 := by decide
  rw [h1, h2]
  norm_num

/-! ## C2: the Risk Aggregator algorithm -/

/-- The Risk Aggregator algorithm exactly as the claim words it: severity
weights low 1 / medium 2 / high 4 / critical 8; account weight
`Σ weight·confidence·5` over account-level factors; transaction weight
`Σ weight·confidence` over transaction-level factors; freeze probability
`max(maxAccountFreezeProb, maxTransactionFreezeProb · 0.2)` (the maximum
of an empty collection of probabilities read as 0, probabilities being
nonnegative); and the critical / high / medium / low cascade. -/
def riskAggregatorSpec (riskFactors : List RiskFactor) : RiskLevel × ℚ :=
  let accountRisks :=
    riskFactors.filter (fun f => decide (f.risk_type = .account_level))
  let transactionRisks :=
    riskFactors.filter (fun f => decide (f.risk_type = .transaction_level))
  let accountWeight :=
    (accountRisks.map (fun f => severityWeight f.severity * f.confidence * 5)).sum
  let transactionWeight :=
    (transactionRisks.map (fun f => severityWeight f.severity * f.confidence)).sum
  let maxAccountFreezeProb :=
    (accountRisks.map (fun f => f.freeze_probability)).foldl max 0
  let maxTransactionFreezeProb :=
    (transactionRisks.map (fun f => f.freeze_probability)).foldl max 0
  let freezeProb := max maxAccountFreezeProb (maxTransactionFreezeProb * (1/5))
  let overall : RiskLevel :=
    if riskFactors.any
        (fun f => decide (f.severity = .critical ∧ f.risk_type = .account_level))
    then .critical
    else if 16 ≤ accountWeight then .high
    else if 8 ≤ accountWeight + transactionWeight then .medium
    else .low
  (overall, freezeProb)

/-- A critical account-level refund-surge factor (the one the refund
analyzer emits for a window with refund rate 1). -/
def sampleFactor : RiskFactor :=
  { pattern := .refund_surge
    severity := .critical
    confidence := 9/10
    freeze_probability := 3/4
    risk_type := .account_level
    affected_transactions := 1 }

theorem pymax_eq_foldl {l : List ℚ} (h : ∀ x ∈ l, 0 ≤ x) :
    pymax l = l.foldl max 0 := by
  cases l with
  | nil => rfl
  | cons x xs =>
    simp only [pymax, List.foldl_cons]
    rw [max_eq_right (h x (by simp))]

/-- C2 counterexample: on the empty factor list the aggregator returns
freeze probability 1/20 while the claimed formula yields 0, so the claim
fails as stated over every list of factors. -/
theorem aggregator_claim_fails_on_empty_list :
    calculateOverallRisk [] ≠ riskAggregatorSpec [] := by
  have hL : (calculateOverallRisk []).2 = 1/20 := rfl
  have hR : (riskAggregatorSpec []).2 = 0 := by
    simp only [riskAggregatorSpec, List.filter_nil, List.map_nil, List.foldl_nil]
    norm_num
  intro heq
  rw [heq, hR] at hL
  norm_num at hL

/-- C2 amended: on every NON-empty list of risk factors with nonnegative
freeze probabilities, the aggregator computes exactly the claimed
weights, freeze probability and risk-level cascade; the empty list
instead returns the hard-coded default `(low, 0.05)`. -/
theorem aggregator_matches_spec_on_nonempty (fs : List RiskFactor)
    (hne : fs ≠ [])
    (hfp : ∀ f ∈ fs, 0 ≤ f.freeze_probability) :
    calculateOverallRisk fs = riskAggregatorSpec fs := by
  have hne' : fs.isEmpty = false := by
    cases fs with
    | nil => exact absurd rfl hne
    | cons a l => rfl
  have hacc : ∀ x ∈ (fs.filter
      (fun f => decide (f.risk_type = .account_level))).map
        (fun f => f.freeze_probability), 0 ≤ x := by
    intro x hx
    rcases List.mem_map.mp hx with ⟨f, hf, rfl⟩
    exact hfp f (List.mem_of_mem_filter hf)
  have htra : ∀ x ∈ (fs.filter
      (fun f => decide (f.risk_type = .transaction_level))).map
        (fun f => f.freeze_probability), 0 ≤ x := by
    intro x hx
    rcases List.mem_map.mp hx with ⟨f, hf, rfl⟩
    exact hfp f (List.mem_of_mem_filter hf)
  simp only [calculateOverallRisk, riskAggregatorSpec, hne', Bool.false_eq_true,
    if_false]
  rw [pymax_eq_foldl hacc, pymax_eq_foldl htra]

/-- Witness for the amended C2 at a concrete one-factor list. -/
theorem aggregator_matches_spec_on_nonempty_witness :
    calculateOverallRisk [sampleFactor] = riskAggregatorSpec [sampleFactor] := by
  refine aggregator_matches_spec_on_nonempty [sampleFactor] (by simp) ?_
  intro f hf
  rw [List.mem_singleton.mp hf]
  norm_num [sampleFactor]

/-! ## C4: zero-charge windows -/

/-- C4 counterexample: a window holding a single refund has zero charges,
yet the assessed freeze probability is the aggregator's no-factor default
1/20, not 0. -/
theorem zero_charge_window_nonzero_freeze_probability :
    (charges onlyRefundWindow).length = 0 ∧
      (analyzeTransactions onlyRefundWindow 10).freeze_probability = 1/20 ∧
      (1/20 : ℚ) ≠ 0 := by
  refine ⟨by decide, ?_, by norm_num⟩
  have hvol : analyzeVolumePatterns onlyRefundWindow 10 = none := by
    have hc : (charges onlyRefundWindow).length = 0 := by decide
    have hh : hoursAnalyzed onlyRefundWindow = 1 := by decide
    simp only [analyzeVolumePatterns, hc, hh]
    norm_num
  have hrf : analyzeRefundPatterns onlyRefundWindow = none := by decide
  have hcb : analyzeChargebackPatterns onlyRefundWindow = none := by decide
  have hvel : analyzeVelocityPatterns onlyRefundWindow = none := by decide
  have hind : analyzeIndividualTransactions onlyRefundWindow = [] := by decide
  have hne : onlyRefundWindow.isEmpty = false := by decide
  simp only [analyzeTransactions, hne, Bool.false_eq_true, if_false, hvol, hrf,
    hcb, hvel, hind, Option.toList_none, List.nil_append, List.append_nil]
  rfl

/-- The account-level factor `_analyze_velocity_patterns` emits when some
hour bucket holds `n ≥ 100` transactions. -/
def velocityFactor (n : Nat) : RiskFactor :=
  { pattern := .velocity_anomaly
    severity := .high
    confidence := 4/5
    freeze_probability := 3/5
    risk_type := .account_level
    affected_transactions := n }

/-- C4 amended: every zero-charge window is handled without any division
by zero — the volume, refund and chargeback assessors all return no
factor — and the EMPTY window is assessed at overall risk `low` with
freeze probability 0. A NON-empty zero-charge window is assessed from its
remaining transactions: overall risk `low` with the aggregator's
no-factor default freeze probability 0.05 when no hour bucket reaches 100
transactions, and overall risk `high` with freeze probability 0.6 when
the velocity assessor fires on its non-charge transactions. -/
theorem zero_charge_window_safe (ts : List Transaction) (b : ℚ)
    (h : charges ts = []) :
    analyzeVolumePatterns ts b = none ∧
      analyzeRefundPatterns ts = none ∧
      analyzeChargebackPatterns ts = none ∧
      (analyzeTransactions [] b).overall_risk = .low ∧
      (analyzeTransactions [] b).freeze_probability = 0 ∧
      (ts ≠ [] → maxHourly ts < 100 →
        (analyzeTransactions ts b).overall_risk = .low ∧
          (analyzeTransactions ts b).freeze_probability = 1/20) ∧
      (ts ≠ [] → 100 ≤ maxHourly ts →
        (analyzeTransactions ts b).overall_risk = .high ∧
          (analyzeTransactions ts b).freeze_probability = 3/5) := by
  have hlen : ((charges ts).length : ℚ) = 0 := by rw [h]; simp
  have hvol : analyzeVolumePatterns ts b = none := by
    simp only [analyzeVolumePatterns, hlen]
    have hz : (0 : ℚ) / ((hoursAnalyzed ts : ℚ)) * 24 = 0 := by
      rw [zero_div, zero_mul]
    rw [hz]
    by_cases hb : 0 < b
    · rw [if_pos hb, zero_div]
      norm_num
    · rw [if_neg hb]
      norm_num
  have href : analyzeRefundPatterns ts = none := by
    simp only [analyzeRefundPatterns, h, List.isEmpty_nil, if_true]
  have hcb : analyzeChargebackPatterns ts = none := by
    simp only [analyzeChargebackPatterns, h, List.isEmpty_nil, if_true]
  have hind : analyzeIndividualTransactions ts = [] := by
    simp only [analyzeIndividualTransactions, h, List.isEmpty_nil, if_true]
  refine ⟨hvol, href, hcb, rfl, rfl, ?_, ?_⟩
  · intro htne hv
    have hne' : ts.isEmpty = false := by
      cases ts with
      | nil => exact absurd rfl htne
      | cons a l => rfl
    have hvel : analyzeVelocityPatterns ts = none := by
      simp only [analyzeVelocityPatterns, hne', Bool.false_eq_true, if_false,
        if_neg (not_le.mpr hv)]
    constructor <;>
      · simp only [analyzeTransactions, hne', Bool.false_eq_true, if_false, hvol,
          href, hcb, hvel, hind, Option.toList_none, List.nil_append,
          List.append_nil]
        rfl
  · intro htne hv
    have hne' : ts.isEmpty = false := by
      cases ts with
      | nil => exact absurd rfl htne
      | cons a l => rfl
    have hvel : analyzeVelocityPatterns ts =
        some (velocityFactor (maxHourly ts)) := by
      simp only [analyzeVelocityPatterns, hne', Bool.false_eq_true, if_false,
        if_pos hv, velocityFactor]
    have hfac1 : (analyzeTransactions ts b).overall_risk =
        (calculateOverallRisk [velocityFactor (maxHourly ts)]).1 := by
      simp only [analyzeTransactions, hne', Bool.false_eq_true, if_false, hvol,
        href, hcb, hvel, hind, Option.toList_none, Option.toList_some,
        List.nil_append, List.append_nil]
    have hfac2 : (analyzeTransactions ts b).freeze_probability =
        (calculateOverallRisk [velocityFactor (maxHourly ts)]).2 := by
      simp only [analyzeTransactions, hne', Bool.false_eq_true, if_false, hvol,
        href, hcb, hvel, hind, Option.toList_none, Option.toList_some,
        List.nil_append, List.append_nil]
    have hany : ([velocityFactor (maxHourly ts)]).any
        (fun f => decide (f.severity = .critical ∧ f.risk_type = .account_level))
        = false := rfl
    have hcor1 : (calculateOverallRisk [velocityFactor (maxHourly ts)]).1
        = .high := by
      simp only [calculateOverallRisk, List.isEmpty_cons, Bool.false_eq_true,
        if_false, hany, velocityFactor, List.filter, decide_account_account,
        decide_account_transaction, List.map_cons, List.map_nil, List.sum_cons,
        List.sum_nil, severityWeight]
      norm_num
      exact fun hx => hx.symm
    have hcor2 : (calculateOverallRisk [velocityFactor (maxHourly ts)]).2
        = 3/5 := by
      simp only [calculateOverallRisk, List.isEmpty_cons, Bool.false_eq_true,
        if_false, velocityFactor, List.filter, decide_account_account,
        decide_account_transaction, List.map_cons, List.map_nil, pymax,
        List.foldl_nil]
      norm_num [max_def]
    constructor
    · rw [hfac1]
      exact hcor1
    · rw [hfac2]
      exact hcor2

/-- Witness for the amended C4 at the single-refund window (a non-empty
zero-charge window whose largest hour bucket is below 100). -/
theorem zero_charge_window_safe_witness :
    analyzeVolumePatterns onlyRefundWindow 10 = none ∧
      analyzeRefundPatterns onlyRefundWindow = none ∧
      analyzeChargebackPatterns onlyRefundWindow = none ∧
      (analyzeTransactions [] 10).overall_risk = .low ∧
      (analyzeTransactions [] 10).freeze_probability = 0 ∧
      ((analyzeTransactions onlyRefundWindow 10).overall_risk = .low ∧
        (analyzeTransactions onlyRefundWindow 10).freeze_probability = 1/20) := by
  have h := zero_charge_window_safe onlyRefundWindow 10 (by decide)
  exact ⟨h.1, h.2.1, h.2.2.1, h.2.2.2.1, h.2.2.2.2.1,
    h.2.2.2.2.2.1 (by decide) (by decide)⟩

/-! ## C5: the volume-spike assessor -/

/-- The volume-spike multiplier named by the claim:
`chargeCount / hoursSpanned * 24 / baselineDailyRate`. -/
def volumeMultiplier (ts : List Transaction) (baselineDaily : ℚ) : ℚ :=
  ((charges ts).length : ℚ) / (hoursAnalyzed ts : ℚ) * 24 / baselineDaily

/-- C5: for every window and positive baseline daily rate, the
volume-spike assessor returns no factor below multiplier 10 and otherwise
one factor of severity high at multiplier 15 and above (medium below),
with freeze probability `min 0.85 (multiplier/20)`. -/
theorem volume_spike_assessor_characterization (ts : List Transaction)
    (baselineDaily : ℚ) (hb : 0 < baselineDaily) :
    (volumeMultiplier ts baselineDaily < 10 →
      analyzeVolumePatterns ts baselineDaily = none) ∧
    (10 ≤ volumeMultiplier ts baselineDaily →
      analyzeVolumePatterns ts baselineDaily =
        some
          { pattern := .volume_spike
            severity :=
              if 15 ≤ volumeMultiplier ts baselineDaily then .high else .medium
            confidence := min (19/20) (volumeMultiplier ts baselineDaily / 20)
            freeze_probability :=
              min (17/20) (volumeMultiplier ts baselineDaily / 20)
            risk_type := .account_level
            affected_transactions := (charges ts).length }) := by
  have hm : (if 0 < baselineDaily then
      ((charges ts).length : ℚ) / (hoursAnalyzed ts : ℚ) * 24 / baselineDaily
      else 1) = volumeMultiplier ts baselineDaily := by
    rw [if_pos hb, volumeMultiplier]
  constructor
  · intro hlt
    simp only [analyzeVolumePatterns, hm]
    rw [if_neg (not_le.mpr hlt)]
  · intro hge
    simp only [analyzeVolumePatterns, hm]
    rw [if_pos hge]

/-- Witness for C5: a single charge against baseline 1/100 has multiplier
2400, firing a high-severity factor with freeze probability 0.85. -/
theorem volume_spike_assessor_characterization_witness :
    analyzeVolumePatterns chargebackWindow (1/100) =
      some
        { pattern := .volume_spike
          severity := .high
          confidence := 19/20
          freeze_probability := 17/20
          risk_type := .account_level
          affected_transactions := 1 } := by
  have hc : (charges chargebackWindow).length = 1 := by decide
  have hh : hoursAnalyzed chargebackWindow = 1 := by decide
  have hm : volumeMultiplier chargebackWindow (1/100) = 2400 := by
    rw [volumeMultiplier, hc, hh]
    norm_num
  have h := (volume_spike_assessor_characterization chargebackWindow (1/100)
    (by norm_num)).2 (by rw [hm]; norm_num)
  rw [h, hm, hc]
  norm_num [min_def]

/-! ## C3: how the primary processor's health is actually derived -/

/-- C3 counterexample: for the one-charge-one-refund window the Risk
Aggregator reports overall risk `critical` (refund rate 1 is a critical
refund surge), yet the Stripe health derived from the same window is only
`warning`, not `frozen`, and its freeze risk 17/20 differs from the
aggregator's freeze probability 3/4 — the health status is not derived
from the aggregator's output. -/
theorem stripe_status_not_derived_from_aggregator :
    (analyzeTransactions refundWindow 100).overall_risk = .critical ∧
      (stripeHealthFromWindow refundWindow 24 100).status = .warning ∧
      (stripeHealthFromWindow refundWindow 24 100).freeze_risk ≠
        (analyzeTransactions refundWindow 100).freeze_probability := by
  have hvol : analyzeVolumePatterns refundWindow 100 = none := by
    have hc : (charges refundWindow).length = 1 := by decide
    have hh : hoursAnalyzed refundWindow = 1 := by decide
    simp only [analyzeVolumePatterns, hc, hh]
    norm_num
  have href : analyzeRefundPatterns refundWindow = some sampleFactor := by
    have hc : charges refundWindow = [mkTx "charge" 5000 0] := by decide
    have hr : refunds refundWindow = [mkTx "refund" 5000 0] := by decide
    simp only [analyzeRefundPatterns, hc, hr, List.isEmpty_cons, List.length_cons,
      List.length_nil, sampleFactor]
    norm_num [min_def]
  have hcb : analyzeChargebackPatterns refundWindow = none := by
    have hc : charges refundWindow = [mkTx "charge" 5000 0] := by decide
    have ha : adjustments refundWindow = [] := by decide
    simp only [analyzeChargebackPatterns, hc, ha, List.isEmpty_cons,
      List.length_cons, List.length_nil]
    norm_num
  have hvel : analyzeVelocityPatterns refundWindow = none := by decide
  have hind : analyzeIndividualTransactions refundWindow = [] := by decide
  have hne : refundWindow.isEmpty = false := by decide
  have hfacts : (analyzeTransactions refundWindow 100).overall_risk =
        (calculateOverallRisk [sampleFactor]).1 ∧
      (analyzeTransactions refundWindow 100).freeze_probability =
        (calculateOverallRisk [sampleFactor]).2 := by
    simp only [analyzeTransactions, hne, Bool.false_eq_true, if_false, hvol, href,
      hcb, hvel, hind, Option.toList_none, Option.toList_some, List.nil_append,
      List.append_nil]
    constructor <;> trivial
  have hfp : (calculateOverallRisk [sampleFactor]).2 = 3/4 := by
    simp only [calculateOverallRisk, List.isEmpty_cons, Bool.false_eq_true,
      if_false, List.filter, sampleFactor, decide_account_account,
      decide_account_transaction, List.map_cons, List.map_nil, pymax,
      List.foldl_nil]
    norm_num [max_def]
  have hhealth : stripeHealthFromWindow refundWindow 24 100 =
      assessStripeHealth 0 1 (1/100) := by
    have ha : (adjustments refundWindow).length = 0 := by decide
    have hr : (refunds refundWindow).length = 1 := by decide
    have hc : (charges refundWindow).length = 1 := by decide
    have h1 : windowChargebackRate refundWindow = 0 := by
      rw [windowChargebackRate, ha, hc]
      norm_num
    have h2 : windowRefundRate refundWindow = 1 := by
      rw [windowRefundRate, hr, hc]
      norm_num
    have h3 : windowVolumeSpike refundWindow 24 100 = 1/100 := by
      rw [windowVolumeSpike, hc]
      norm_num
    rw [stripeHealthFromWindow, h1, h2, h3]
  have hstatus : (assessStripeHealth 0 1 (1/100)).status = .warning := by
    have h1 : stripeStatusAfterChargeback 0 = .healthy := by
      unfold stripeStatusAfterChargeback
      norm_num
    have h2 : stripeStatusAfterRefund 1 .healthy = .warning := by
      unfold stripeStatusAfterRefund
      norm_num
    have h3 : stripeStatusAfterVolume (1/100) .warning = .warning := by
      unfold stripeStatusAfterVolume
      norm_num
    show stripeStatusAfterVolume (1/100)
      (stripeStatusAfterRefund 1 (stripeStatusAfterChargeback 0)) = .warning
    rw [h1, h2, h3]
  have hrisk : (assessStripeHealth 0 1 (1/100)).freeze_risk = 17/20 := by
    have h1 : stripeFreezeAfterChargeback 0 = 0 := by
      unfold stripeFreezeAfterChargeback
      norm_num
    have h2 : stripeFreezeAfterRefund 1 0 = 17/20 := by
      unfold stripeFreezeAfterRefund
      norm_num [max_def]
    have h3 : stripeFreezeAfterVolume (1/100) (17/20) = 17/20 := by
      unfold stripeFreezeAfterVolume
      norm_num
    show stripeFreezeAfterVolume (1/100)
      (stripeFreezeAfterRefund 1 (stripeFreezeAfterChargeback 0)) = 17/20
    rw [h1, h2, h3]
  refine ⟨?_, ?_, ?_⟩
  · rw [hfacts.1]
    exact calculateOverallRisk_fst_critical (List.mem_singleton_self _) rfl rfl
  · rw [hhealth, hstatus]
  · rw [hhealth, hrisk, hfacts.2, hfp]
    norm_num

/-- C3 amended: the primary processor's health status is computed from
the window's raw rates, not from the Risk Aggregator: the status is
`frozen` exactly when the chargeback rate is at least 0.01, `healthy`
exactly when the chargeback rate is below 0.005, the refund rate below
0.05 and the volume spike below 10, and `warning` in every other case;
and the freeze risk equals the maximum of the fixed per-threshold
constants (0.95 and 0.6 for chargebacks, 0.85 and 0.4 for refunds, 0.8
and 0.3 for volume, 0 where no threshold is met), which need not equal
the aggregator's freeze probability. -/
theorem stripe_health_status_characterization (cb rr vs : ℚ) :
    ((assessStripeHealth cb rr vs).status = .frozen ↔ 1/100 ≤ cb) ∧
      ((assessStripeHealth cb rr vs).status = .healthy ↔
        (cb < 1/200 ∧ rr < 1/20 ∧ vs < 10)) ∧
      ((assessStripeHealth cb rr vs).status = .warning ↔
        (¬ (1/100 ≤ cb) ∧ ¬ (cb < 1/200 ∧ rr < 1/20 ∧ vs < 10))) ∧
      (assessStripeHealth cb rr vs).freeze_risk =
        max (if 1/100 ≤ cb then 19/20 else if 1/200 ≤ cb then 3/5 else 0)
          (max (if 1/10 ≤ rr then 17/20 else if 1/20 ≤ rr then 2/5 else 0)
            (if 20 ≤ vs then 4/5 else if 10 ≤ vs then 3/10 else 0)) := by
  have hfrozen : (assessStripeHealth cb rr vs).status = .frozen ↔ 1/100 ≤ cb := by
    show stripeStatusAfterVolume vs
      (stripeStatusAfterRefund rr (stripeStatusAfterChargeback cb)) = .frozen ↔ _
    rw [stripeStatusAfterVolume_eq_frozen, stripeStatusAfterRefund_eq_frozen,
      stripeStatusAfterChargeback_eq_frozen]
  have hhealthy : (assessStripeHealth cb rr vs).status = .healthy ↔
      (cb < 1/200 ∧ rr < 1/20 ∧ vs < 10) := by
    show stripeStatusAfterVolume vs
      (stripeStatusAfterRefund rr (stripeStatusAfterChargeback cb)) = .healthy ↔ _
    rw [stripeStatusAfterVolume_eq_healthy, stripeStatusAfterRefund_eq_healthy,
      stripeStatusAfterChargeback_eq_healthy]
    tauto
  have hunav : (assessStripeHealth cb rr vs).status ≠ .unavailable := by
    show stripeStatusAfterVolume vs
      (stripeStatusAfterRefund rr (stripeStatusAfterChargeback cb)) ≠ .unavailable
    exact stripeStatusAfterVolume_ne_unavailable
      (stripeStatusAfterRefund_ne_unavailable
        (stripeStatusAfterChargeback_ne_unavailable cb))
  refine ⟨hfrozen, hhealthy, ?_, ?_⟩
  · constructor
    · intro hw
      constructor
      · intro hcb
        have hf := hfrozen.mpr hcb
        rw [hw] at hf
        simp at hf
      · intro hh
        have hf := hhealthy.mpr hh
        rw [hw] at hf
        simp at hf
    · rintro ⟨h1, h2⟩
      cases hstatus : (assessStripeHealth cb rr vs).status with
      | healthy => exact absurd (hhealthy.mp hstatus) h2
      | warning => rfl
      | frozen => exact absurd (hfrozen.mp hstatus) h1
      | unavailable => exact absurd hstatus hunav
  · show stripeFreezeAfterVolume vs
      (stripeFreezeAfterRefund rr (stripeFreezeAfterChargeback cb)) = _
    unfold stripeFreezeAfterVolume stripeFreezeAfterRefund
      stripeFreezeAfterChargeback
    split_ifs <;> norm_num [max_def]

/-- Witness for the amended C3: chargeback rate 2% freezes Stripe. -/
theorem stripe_health_status_characterization_witness :
    (assessStripeHealth (1/50) 0 1).status = .frozen :=
  (stripe_health_status_characterization (1/50) 0 1).1.mpr (by norm_num)

/-! ## C9: freeze avoidance only ever fires for a Stripe default -/

/-- C9: for every routing request whose transaction-derived default
processor is not Stripe, the decision keeps that default and reports no
freeze avoidance, whatever every processor's health status and freeze
risk are. -/
theorem no_freeze_avoidance_for_non_stripe_default (amount : ℚ)
    (description : String) (healths : ProcessorType → ProcessorHealth)
    (h : getDefaultProcessor amount description ≠ .stripe) :
    (routingDecisionCore amount description healths).selected_processor =
        getDefaultProcessor amount description ∧
      (routingDecisionCore amount description healths).freeze_avoidance = false := by
  have h1 : ¬ (getDefaultProcessor amount description = .stripe ∧
      (healths .stripe).status = .frozen) := fun hc => h hc.1
  have h2 : ¬ (getDefaultProcessor amount description = .stripe ∧
      7/10 < (healths .stripe).freeze_risk) := fun hc => h hc.1
  simp only [routingDecisionCore, if_neg h1, if_neg h2]
  constructor <;> trivial

/-- Witness for C9: a crypto-keyword transaction defaults to Crossmint
and keeps it even while Stripe is frozen (chargeback rate 2%). -/
theorem no_freeze_avoidance_for_non_stripe_default_witness :
    (routingDecisionCore 200 "nft marketplace purchase"
        (assessProcessorHealth (1/50) 0 1)).selected_processor = .crossmint ∧
      (routingDecisionCore 200 "nft marketplace purchase"
        (assessProcessorHealth (1/50) 0 1)).freeze_avoidance = false := by
  have hd : getDefaultProcessor 200 "nft marketplace purchase" = .crossmint := by
    decide
  have h := no_freeze_avoidance_for_non_stripe_default 200 "nft marketplace purchase"
    (assessProcessorHealth (1/50) 0 1) (by rw [hd]; decide)
  rw [hd] at h
  exact h

/-! ## C6: freeze avoidance picks the best-scoring alternative -/

/-- C6: whenever the default processor's assessed health is `frozen`, or
its freeze risk exceeds 0.7, the routing decision switches to a processor
different from the default, reports freeze avoidance, and that processor
is a highest scorer of `alternativeScore` (amount fit +30 or -50,
category match +25, health `(1-freeze_risk)·20`, freeze resistance `·15`)
among the non-default (non-Stripe) processors. -/
theorem freeze_avoidance_selects_best_alternative (amount : ℚ)
    (description : String) (cb rr vs : ℚ)
    (h : (assessProcessorHealth cb rr vs
            (getDefaultProcessor amount description)).status = .frozen ∨
         7/10 < (assessProcessorHealth cb rr vs
            (getDefaultProcessor amount description)).freeze_risk) :
    (makeIntelligentRoutingDecision amount description cb rr vs).freeze_avoidance
        = true ∧
      (makeIntelligentRoutingDecision amount description cb rr vs).selected_processor
        ≠ getDefaultProcessor amount description ∧
      (makeIntelligentRoutingDecision amount description cb rr vs).selected_processor
        ∈ nonStripeProcessors ∧
      ∀ p ∈ nonStripeProcessors,
        alternativeScore amount description (assessProcessorHealth cb rr vs) p ≤
          alternativeScore amount description (assessProcessorHealth cb rr vs)
            ((makeIntelligentRoutingDecision amount description cb rr vs).selected_processor) := by
  by_cases hd : getDefaultProcessor amount description = .stripe
  · have hstripe : assessProcessorHealth cb rr vs .stripe =
        assessStripeHealth cb rr vs := by
      simp [assessProcessorHealth]
    rw [hd, hstripe] at h
    have hres : makeIntelligentRoutingDecision amount description cb rr vs =
        { selected_processor :=
            selectStripeAlternative amount description (assessProcessorHealth cb rr vs)
          confidence := 23/25
          fallback_chain :=
            buildFallbackChain
              (selectStripeAlternative amount description (assessProcessorHealth cb rr vs))
              (assessProcessorHealth cb rr vs)
          freeze_avoidance := true } := by
      simp only [makeIntelligentRoutingDecision, routingDecisionCore, hstripe]
      split_ifs with h1 h2
      · rfl
      · rfl
      · exfalso
        rcases h with h | h
        · exact h1 ⟨hd, h⟩
        · exact h2 ⟨hd, h⟩
    rw [hres, hd]
    refine ⟨rfl, ?_, selectStripeAlternative_mem amount description _, ?_⟩
    · exact mem_nonStripeProcessors_ne_stripe
        (selectStripeAlternative_mem amount description _)
    · intro p hp
      exact selectStripeAlternative_maximal amount description _ p hp
  · exfalso
    have halt : assessProcessorHealth cb rr vs
        (getDefaultProcessor amount description) =
        assessAlternativeHealth (getDefaultProcessor amount description)
          (assessStripeHealth cb rr vs).status := by
      simp only [assessProcessorHealth, if_neg hd]
    rcases h with h | h
    · rw [halt, assessAlternativeHealth_status] at h
      cases h
    · rw [halt] at h
      have hle := assessAlternativeHealth_freeze_risk_le
        (getDefaultProcessor amount description) (assessStripeHealth cb rr vs).status
      linarith

/-- Witness for C6: a B2B transaction defaults to Stripe while the window
freezes Stripe (chargeback rate 2%), so the decision avoids Stripe and
the chosen alternative scores at least as high as PayPal. -/
theorem freeze_avoidance_selects_best_alternative_witness :
    (makeIntelligentRoutingDecision 150 "b2b subscription" (1/50) 0 1).freeze_avoidance
        = true ∧
      (makeIntelligentRoutingDecision 150 "b2b subscription" (1/50) 0 1).selected_processor
        ≠ getDefaultProcessor 150 "b2b subscription" ∧
      alternativeScore 150 "b2b subscription" (assessProcessorHealth (1/50) 0 1)
          .paypal ≤
        alternativeScore 150 "b2b subscription" (assessProcessorHealth (1/50) 0 1)
          ((makeIntelligentRoutingDecision 150 "b2b subscription"
            (1/50) 0 1).selected_processor) := by
  have hd : getDefaultProcessor 150 "b2b subscription" = .stripe := by decide
  have hst : (assessProcessorHealth (1/50) 0 1
      (getDefaultProcessor 150 "b2b subscription")).status = .frozen := by
    rw [hd]
    have hstripe : assessProcessorHealth (1/50) 0 1 .stripe =
        assessStripeHealth (1/50) 0 1 := by
      simp [assessProcessorHealth]
    rw [hstripe]
    exact assessStripeHealth_frozen (by norm_num)
  have h := freeze_avoidance_selects_best_alternative 150 "b2b subscription"
    (1/50) 0 1 (Or.inl hst)
  exact ⟨h.1, h.2.1, h.2.2.2 .paypal (by decide)⟩

/-! ## C7: fallback-chain invariants -/

/-- C7: for every selected processor and health map, the fallback chain —
the top three of the remaining processors stable-sorted by
`(-freeze_risk, -freeze_resistance)` — has length at most three, is
sorted by that key, and never contains the selected processor or a frozen
processor. -/
theorem fallback_chain_invariants (selected : ProcessorType)
    (healths : ProcessorType → ProcessorHealth) (p : ProcessorType) :
    (buildFallbackChain selected healths).length ≤ 3 ∧
      (buildFallbackChain selected healths).Sorted (fallbackLe healths) ∧
      (p ∈ buildFallbackChain selected healths →
        p ≠ selected ∧ (healths p).status ≠ .frozen) := by
  refine ⟨?_, ?_, ?_⟩
  · simp only [buildFallbackChain]
    exact List.length_take_le 3 _
  · simp only [buildFallbackChain]
    exact List.Pairwise.sublist (List.take_sublist 3 _)
      (List.sorted_insertionSort (fallbackLe healths) _)
  · intro hp
    simp only [buildFallbackChain] at hp
    have hp' := List.take_subset 3 _ hp
    rw [List.mem_insertionSort] at hp'
    have hmem := List.mem_filter.mp hp'
    exact of_decide_eq_true hmem.2

/-- A concrete health map for the C7 witness: Stripe frozen with full
freeze risk, every other processor healthy with zero freeze risk. -/
def demoHealths : ProcessorType → ProcessorHealth := fun p =>
  { processor := p
    status := if p = .stripe then .frozen else .healthy
    freeze_risk := if p = .stripe then 1 else 0
    chargeback_rate := 0
    refund_rate := 0
    volume_spike := 1 }

/-- Witness for C7 with PayPal selected under `demoHealths`: the chain is
`[crossmint, visa, adyen]`, so Crossmint is a member and is neither the
selected processor nor frozen. -/
theorem fallback_chain_invariants_witness :
    (buildFallbackChain .paypal demoHealths).length ≤ 3 ∧
      (buildFallbackChain .paypal demoHealths).Sorted (fallbackLe demoHealths) ∧
      (ProcessorType.crossmint ≠ ProcessorType.paypal ∧
        (demoHealths ProcessorType.crossmint).status ≠ .frozen) := by
  have h := fallback_chain_invariants .paypal demoHealths .crossmint
  exact ⟨h.1, h.2.1, h.2.2 (by decide)⟩

/-! ## C10: the fallback chain always has length exactly three -/

/-- If no non-Stripe processor is frozen, at least four candidates
survive the fallback filter, so the chain is exactly three long. -/
theorem buildFallbackChain_length_three (selected : ProcessorType)
    (healths : ProcessorType → ProcessorHealth)
    (h : ∀ p, p ≠ ProcessorType.stripe → (healths p).status ≠ .frozen) :
    (buildFallbackChain selected healths).length = 3 := by
  have hcard : 4 ≤ (nonStripeProcessors.filter
      (fun p => decide (p ≠ selected))).length := by
    cases selected <;> decide
  have hself : (nonStripeProcessors.filter (fun p => decide (p ≠ selected))).filter
      (fun p => decide (p ≠ selected ∧ (healths p).status ≠ .frozen)) =
      nonStripeProcessors.filter (fun p => decide (p ≠ selected)) := by
    refine List.filter_eq_self.mpr ?_
    intro a ha
    have h2 := List.mem_filter.mp ha
    exact decide_eq_true
      ⟨of_decide_eq_true h2.2, h a (mem_nonStripeProcessors_ne_stripe h2.1)⟩
  have hsub : (nonStripeProcessors.filter (fun p => decide (p ≠ selected))).Sublist
      (allProcessors.filter
        (fun p => decide (p ≠ selected ∧ (healths p).status ≠ .frozen))) := by
    rw [← hself]
    refine List.Sublist.filter _ ?_
    exact (List.filter_sublist _).trans (List.sublist_cons_self _ _)
  have hlen : 4 ≤ (allProcessors.filter
      (fun p => decide (p ≠ selected ∧ (healths p).status ≠ .frozen))).length :=
    le_trans hcard hsub.length_le
  simp only [buildFallbackChain]
  rw [List.length_take, List.length_insertionSort]
  omega

/-- C10: every routing decision of the engine carries a fallback chain of
length exactly three: the five non-Stripe processors are always assessed
healthy, so after removing the selected processor and any frozen one at
least four candidates remain. -/
theorem fallback_chain_length_exactly_three (amount : ℚ) (description : String)
    (cb rr vs : ℚ) :
    (makeIntelligentRoutingDecision amount description cb rr vs).fallback_chain.length
      = 3 := by
  have hh : ∀ p, p ≠ ProcessorType.stripe →
      (assessProcessorHealth cb rr vs p).status ≠ .frozen := by
    intro p hp
    simp only [assessProcessorHealth, if_neg hp, assessAlternativeHealth_status]
    simp
  simp only [makeIntelligentRoutingDecision, routingDecisionCore]
  split_ifs <;> exact buildFallbackChain_length_three _ _ hh

/-! ## C8: advisor selections are validated against the available set -/

/-- C8: for every Decision Advisor response and every non-empty list of
available processors, the routing decision's selected processor is a
member of the available set; when the advisor names a processor outside
the set, the core substitutes its own default, the first available
processor. -/
theorem advisor_selection_validated (claudeSelected : Option String)
    (availableIds : List String) (hne : availableIds ≠ []) :
    selectValidatedProcessor claudeSelected availableIds ∈ availableIds ∧
      (∀ s, claudeSelected = some s → s ∉ availableIds →
        selectValidatedProcessor claudeSelected availableIds =
          availableIds.headD "stripe") := by
  have hhead : availableIds.headD "stripe" ∈ availableIds := by
    cases availableIds with
    | nil => exact absurd rfl hne
    | cons a l => exact List.mem_cons_self a l
  by_cases hc : claudeSelected.getD (availableIds.headD "stripe") ∈ availableIds
  · have hcond : ¬ (claudeSelected.getD (availableIds.headD "stripe") ∉ availableIds ∧
        availableIds ≠ []) := fun hx => hx.1 hc
    constructor
    · simp only [selectValidatedProcessor, if_neg hcond]
      exact hc
    · intro s hs hsmem
      exfalso
      rw [hs, Option.getD_some] at hc
      exact hsmem hc
  · have hcond : claudeSelected.getD (availableIds.headD "stripe") ∉ availableIds ∧
        availableIds ≠ [] := ⟨hc, hne⟩
    constructor
    · simp only [selectValidatedProcessor, if_pos hcond]
      exact hhead
    · intro s hs hsmem
      simp only [selectValidatedProcessor, if_pos hcond]

/-- Witness for C8: the advisor answer `bitpay` lies outside
`[stripe, paypal]` and is replaced by the first available processor. -/
theorem advisor_selection_validated_witness :
    selectValidatedProcessor (some "bitpay") ["stripe", "paypal"] ∈
        (["stripe", "paypal"] : List String) ∧
      selectValidatedProcessor (some "bitpay") ["stripe", "paypal"] =
        (["stripe", "paypal"] : List String).headD "stripe" := by
  have h := advisor_selection_validated (some "bitpay") ["stripe", "paypal"]
    (by simp)
  exact ⟨h.1, h.2 "bitpay" rfl (by decide)⟩

end IntelliShop
